import Mathlib

/-!
Verification of the NIFTY paper-trading terminal against its specification.

The Python sources are shallowly embedded: module-level constants become Lean
constants, pure computations become Lean functions, Streamlit rendering becomes
a function producing a list of UI events, exceptions become explicit
`Except String` values threaded as environment inputs, and Python floats are
modelled as rationals.  Components of the repository that are not present under
`src/` (the strategy engine, scheduler, broker client, database and notifier
modules) are, where a claim needs them, modelled from the specification text;
each such definition carries a doc comment starting `Modelled from the spec:`.
-/

-- ─── core/config.py ──────────────────────────────────────────────────────────

/-- src/core/config.py line 9: `PAPER_MODE: bool = True`.  A module-level
constant; no assignment to it exists anywhere in the repository. -/
def PAPER_MODE : Bool := true

/-- src/core/config.py line 35: `MAX_ADJUSTMENTS = 3`. -/
def MAX_ADJUSTMENTS : Nat := 3

/-- src/core/config.py line 34: `MAX_TRADES_PER_DAY = 2`. -/
def MAX_TRADES_PER_DAY : Nat := 2

-- ─── UI event traces ─────────────────────────────────────────────────────────

/-- One visible Streamlit output or one access to the strategy object, in
rendering order.  `strategy_access` records a method call or attribute read on
the `GammaStrangleStrategy` instance passed to a tab renderer. -/
inductive UIEvent where
  | markdown (s : String)
  | info (s : String)
  | warning (s : String)
  | error (s : String)
  | success (s : String)
  | metric (label : String)
  | table (label : String)
  | progress (value : ℚ)
  | caption (s : String)
  | strategy_access (name : String)
deriving DecidableEq

/-- Names of all strategy methods/attributes touched by a render trace. -/
def strategy_accesses (t : List UIEvent) : List String :=
  t.filterMap fun e => match e with
    | .strategy_access n => some n
    | _ => none

/-- Text of the paper-trading banner rendered at the top of src/app.py
(lines 27-34), stripped of its HTML styling. -/
def paper_banner_text : String :=
  "⚠️ PAPER TRADING MODE ACTIVE — All orders are simulated. No real trades placed."

/-- src/app.py lines 27-34: the banner is emitted iff `PAPER_MODE` holds. -/
def app_paper_banner : List UIEvent :=
  if PAPER_MODE then [UIEvent.markdown paper_banner_text] else []

-- ─── spec-modelled broker order routing ──────────────────────────────────────

/-- Destination of an order-placement call: a synthetic paper fill at the last
traded price, or a live broker endpoint. -/
inductive OrderRoute where
  | paper_fill (price : ℚ)
  | live_endpoint
deriving DecidableEq

/-- Modelled from the spec: the broker gateway (`data/fyers_client.py`, not
under src/) exposes `place_order(leg) → synthetic fill at last price (paper
mode never reaches a live endpoint — this is an asserted invariant at
construction, violation is a fatal configuration error)`.  The guard therefore
either produces a paper fill or fails construction; no branch produces
`live_endpoint`. -/
def place_order (paper_mode : Bool) (last_price : ℚ) : Except String OrderRoute :=
  if paper_mode then Except.ok (OrderRoute.paper_fill last_price)
  else Except.error "ConfigInvalid: paper-mode guard violated"

-- ─── daily loss cap (C2) ─────────────────────────────────────────────────────

/-- src/app.py line 38: session default `capital = 500_000`. -/
def DEFAULT_CAPITAL : ℚ := 500000

/-- src/app.py line 38: session default `risk_pct = 2.0`. -/
def DEFAULT_RISK_PCT : ℚ := 2

/-- src/app.py line 125: sidebar metric value `capital * risk_pct / 100`. -/
def sidebar_max_daily_loss (capital risk_pct : ℚ) : ℚ :=
  capital * risk_pct / 100

/-- src/ui/other_tabs.py line 330: `max_loss = strategy.capital * strategy.risk_pct / 100`. -/
def control_tab_max_loss (capital risk_pct : ℚ) : ℚ :=
  capital * risk_pct / 100

/-- Modelled from the spec: the RiskAccountant daily loss cap
(`capital × risk_pct / 100`); its host module `core/strategy.py` is not under
src/. -/
def max_daily_loss (capital risk_pct : ℚ) : ℚ :=
  capital * risk_pct / 100

-- ─── gamma risk label (C3) ───────────────────────────────────────────────────

/-- Risk band shown in the Live Terminal tab. -/
inductive GammaRiskLabel where
  | HIGH
  | MODERATE
  | LOW
deriving DecidableEq

/-- src/ui/live_terminal_tab.py lines 49-55: the label chain
`if gamma_score > 70: HIGH elif gamma_score > 50: MODERATE else: LOW`. -/
def gamma_risk_label (score : ℚ) : GammaRiskLabel :=
  if score > 70 then GammaRiskLabel.HIGH
  else if score > 50 then GammaRiskLabel.MODERATE
  else GammaRiskLabel.LOW

-- ─── lot sizes (C5) ──────────────────────────────────────────────────────────

/-- src/ui/other_tabs.py lines 327-328 and 344: per-leg quantity is derived as
`lots * 65` in the Strategy Control tab (risk parameter display and margin
section). -/
def control_tab_leg_qty (lots : Nat) : Nat := lots * 65

/-- Lot size used by the derivations in src/ui/other_tabs.py. -/
def control_tab_lot_size : Nat := 65

/-- src/app.py line 121: the sidebar lots input documents
"1 lot = 75 NIFTY shares. More lots = more margin required." -/
def sidebar_lot_size : Nat := 75

-- ─── strategy construction (src/app.py lines 43-100) ─────────────────────────

/-- The Python `str.strip()` method with no argument: remove leading and trailing
whitespace.  Defined by structural recursion on the character list so that it
evaluates inside the kernel. -/
def py_strip (s : String) : String :=
  String.mk (((s.data.dropWhile Char.isWhitespace).reverse.dropWhile Char.isWhitespace).reverse)

/-- Credential record returned by `get_credentials()`
(src/ui/profile_tab.py), restricted to the fields `_build_strategy` reads. -/
structure Credentials where
  client_id : String
  access_token : String
  telegram_token : String
  telegram_chat_id : String
deriving DecidableEq

/-- Handler registered with the scheduler for one event in
`scheduler.setup(...)` (src/app.py lines 74-80). -/
inductive HandlerAction where
  | strategy_start
  | strategy_stop
  | close_all_positions (reason : String)
  | eod_report
  | monitor_positions
deriving DecidableEq

/-- Event-to-handler registry passed to `scheduler.setup`
(src/app.py lines 74-80). -/
structure SchedulerSetup where
  on_market_open : HandlerAction
  on_no_new_trades : HandlerAction
  on_force_close : HandlerAction
  on_eod_report : HandlerAction
  on_monitor : HandlerAction
deriving DecidableEq

/-- The registry src/app.py actually installs: market open starts the
strategy, no-new-trades stops it, force-close closes all positions with reason
"FORCE_CLOSE", eod runs the report closure, and the monitor tick calls
`monitor_positions`. -/
def app_scheduler_setup : SchedulerSetup :=
  { on_market_open := HandlerAction.strategy_start
    on_no_new_trades := HandlerAction.strategy_stop
    on_force_close := HandlerAction.close_all_positions "FORCE_CLOSE"
    on_eod_report := HandlerAction.eod_report
    on_monitor := HandlerAction.monitor_positions }

/-- Result of `strategy.generate_eod_summary()` as consumed by
src/app.py lines 93-99. -/
structure EodSummary where
  total_trades : Nat
  net_pnl : ℚ
  max_drawdown : ℚ
  win_rate : ℚ
deriving DecidableEq

/-- Arguments of `notifier.send_eod_report` (src/app.py lines 94-99). -/
structure EodReportArgs where
  total_trades : Nat
  net_pnl : ℚ
  max_dd : ℚ
  win_rate : ℚ
deriving DecidableEq

/-- src/app.py lines 91-100 `_make_eod_fn`: the eod closure fetches the daily
summary and forwards its four fields to the notifier. -/
def make_eod_fn (summary : EodSummary) : EodReportArgs :=
  { total_trades := summary.total_trades
    net_pnl := summary.net_pnl
    max_dd := summary.max_drawdown
    win_rate := summary.win_rate }

/-- One side-effecting construction step performed inside the `try` block of
`_build_strategy` (src/app.py lines 50-82). -/
inductive BuildStep where
  | mk_client
  | mk_notifier
  | mk_strategy
  | mk_scheduler
  | scheduler_start
deriving DecidableEq

/-- Environment for one `_build_strategy` run: the outcome of each Python
constructor call, where `Except.error e` models that call raising an exception
with message `e`. -/
structure BuildEnv where
  client_result : Except String Unit
  notifier_result : Except String Unit
  strategy_result : Except String Unit
  scheduler_result : Except String Unit

/-- Result of `_build_strategy`: the returned `(strategy, message)` pair
(`strategy := none` models Python `None`), the construction steps that were
performed, and the session scheduler after the call. -/
structure BuildResult where
  strategy : Option Unit
  message : String
  steps : List BuildStep
  scheduler : Option SchedulerSetup
deriving DecidableEq

/-- src/app.py line 46: the message returned when the client id is blank. -/
def missing_client_id_msg : String :=
  "❌ Fyers Client ID is missing. Fill in the Profile tab and click Save."

/-- src/app.py line 85: the success message. -/
def build_success_msg : String := "✅ Strategy initialised successfully!"

/-- src/app.py line 89: the message wrapping a caught exception. -/
def build_error_msg (e : String) : String := "❌ Error: " ++ e

/-- src/app.py lines 43-89 `_build_strategy`: a blank (whitespace-only) client
id returns `(None, missing-message)` before the `try` block, so no constructor
runs and the session scheduler is untouched; otherwise the client, notifier and
strategy are built in order, a scheduler is created, wired via
`app_scheduler_setup` and started only when the session has none, and any
exception from a step is caught and returned as `(None, "❌ Error: " ++ e)`.
`sched0` is `st.session_state["scheduler"]` on entry. -/
def _build_strategy (creds : Credentials) (sched0 : Option SchedulerSetup)
    (env : BuildEnv) : BuildResult :=
  if py_strip creds.client_id = "" then
    { strategy := none, message := missing_client_id_msg, steps := [], scheduler := sched0 }
  else
    match env.client_result with
    | Except.error e =>
        { strategy := none, message := build_error_msg e
          steps := [BuildStep.mk_client], scheduler := sched0 }
    | Except.ok _ =>
      match env.notifier_result with
      | Except.error e =>
          { strategy := none, message := build_error_msg e
            steps := [BuildStep.mk_client, BuildStep.mk_notifier], scheduler := sched0 }
      | Except.ok _ =>
        match env.strategy_result with
        | Except.error e =>
            { strategy := none, message := build_error_msg e
              steps := [BuildStep.mk_client, BuildStep.mk_notifier, BuildStep.mk_strategy]
              scheduler := sched0 }
        | Except.ok _ =>
          match sched0 with
          | some s =>
              { strategy := some (), message := build_success_msg
                steps := [BuildStep.mk_client, BuildStep.mk_notifier, BuildStep.mk_strategy]
                scheduler := some s }
          | none =>
            match env.scheduler_result with
            | Except.error e =>
                { strategy := none, message := build_error_msg e
                  steps := [BuildStep.mk_client, BuildStep.mk_notifier,
                            BuildStep.mk_strategy, BuildStep.mk_scheduler]
                  scheduler := none }
            | Except.ok _ =>
                { strategy := some (), message := build_success_msg
                  steps := [BuildStep.mk_client, BuildStep.mk_notifier, BuildStep.mk_strategy,
                            BuildStep.mk_scheduler, BuildStep.scheduler_start]
                  scheduler := some app_scheduler_setup }

-- ─── gamma defense step (C6) ─────────────────────────────────────────────────

/-- Outcome of one gamma-defense evaluation on one open trade. -/
inductive DefenseOutcome where
  | no_action
  | adjusted (new_level : Nat)
  | forced_close (reason : String)
deriving DecidableEq

/-- Modelled from the spec: the GammaDefenseEngine step of `core/strategy.py`
(not under src/).  Section 4.4: if a tier fires and `trade.adjustment_level`
already equals the maximum (`MAX_ADJUSTMENTS = 3`, src/core/config.py line 35),
force-close the trade with reason "MAX_ADJUSTMENTS_EXCEEDED" instead of
adjusting; otherwise increment `adjustment_level`; no tier firing is a normal
outcome. -/
def gamma_defense_step (tier_fires : Bool) (adjustment_level : Nat) : DefenseOutcome :=
  if tier_fires then
    if adjustment_level = MAX_ADJUSTMENTS then
      DefenseOutcome.forced_close "MAX_ADJUSTMENTS_EXCEEDED"
    else
      DefenseOutcome.adjusted (adjustment_level + 1)
  else
    DefenseOutcome.no_action

/-- The adjustment level of the trade after a defense outcome is applied. -/
def level_after (o : DefenseOutcome) (old : Nat) : Nat :=
  match o with
  | DefenseOutcome.adjusted n => n
  | _ => old

-- ─── margin aggregation (C8) ─────────────────────────────────────────────────

/-- Successful margin breakdown returned by the broker gateway. -/
structure MarginBreakdown where
  span_margin : ℚ
  exposure_margin : ℚ
  total_required : ℚ
  hedge_benefit : ℚ
deriving DecidableEq

/-- Outcome of the external basket-margin computation: a breakdown, or a
failure (auth, network, malformed response) with a reason. -/
inductive GatewayMarginOutcome where
  | ok (b : MarginBreakdown)
  | failure (reason : String)
deriving DecidableEq

/-- Structured result consumed by the Strategy Control tab
(src/ui/other_tabs.py lines 349-369): a `source` tag, the four margin figures,
and an optional error reason. -/
structure MarginResult where
  source : String
  span_margin : ℚ
  exposure_margin : ℚ
  total_required : ℚ
  hedge_benefit : ℚ
  error : Option String
deriving DecidableEq

/-- Modelled from the spec: `calculate_margin_required` of the MarginAggregator
(`core/strategy.py`, not under src/).  Section 4.6: on success it returns the
structured breakdown; on any failure it returns a structured "unavailable"
result carrying a human-readable reason, and never raises past this
boundary. -/
def calculate_margin_required (g : GatewayMarginOutcome) : MarginResult :=
  match g with
  | GatewayMarginOutcome.ok b =>
      { source := "fyers", span_margin := b.span_margin
        exposure_margin := b.exposure_margin, total_required := b.total_required
        hedge_benefit := b.hedge_benefit, error := none }
  | GatewayMarginOutcome.failure r =>
      { source := "unavailable", span_margin := 0, exposure_margin := 0
        total_required := 0, hedge_benefit := 0, error := some r }

/-- src/ui/other_tabs.py line 360: the caller branches on
`m.get("error") or m.get("source") == "unavailable"`. -/
def margin_display_is_error (m : MarginResult) : Bool :=
  m.error.isSome || m.source == "unavailable"

-- ─── strategy object and tab renderers (C9) ──────────────────────────────────

/-- The attributes and method results of a `GammaStrangleStrategy` instance
that the UI tabs under src/ui/ read.  The class itself lives in
`core/strategy.py` (not under src/); the tabs only consume these values. -/
structure GammaStrangleStrategy where
  spot : Option ℚ
  supertrend_dir : String
  vwap : Option ℚ
  net_delta : ℚ
  gamma_risk_score : ℚ
  live_mtm : ℚ
  is_running : Bool
  capital : ℚ
  risk_pct : ℚ
  daily_pnl : ℚ
  trades_today : Nat
  num_lots : Nat
deriving DecidableEq

/-- src/ui/live_terminal_tab.py line 27: the paper-mode warning text. -/
def paper_warning_text : String :=
  "🟡 **PAPER TRADING MODE ACTIVE** — No real orders will be placed"

/-- src/ui/live_terminal_tab.py lines 21-82 `render_live_terminal_tab`: header,
paper-mode warning, then — with no strategy — an info message and an immediate
return; with a strategy, the metrics row (reading spot, supertrend_dir, vwap,
get_net_delta, get_gamma_risk_score, calculate_mtm), the gamma gauge, the
strategy-state row (reading is_running, capital, _daily_pnl, _trades_today) and
a timestamp caption. -/
def render_live_terminal_tab (strategy : Option GammaStrangleStrategy) : List UIEvent :=
  [UIEvent.markdown "## 📡 Live Market Terminal"]
  ++ (if PAPER_MODE then [UIEvent.warning paper_warning_text] else [])
  ++ match strategy with
     | none => [UIEvent.info "Configure credentials in the **Profile** tab and start the strategy."]
     | some s =>
       [UIEvent.strategy_access "spot", UIEvent.strategy_access "supertrend_dir",
        UIEvent.strategy_access "vwap", UIEvent.strategy_access "get_net_delta",
        UIEvent.strategy_access "get_gamma_risk_score", UIEvent.strategy_access "calculate_mtm",
        UIEvent.metric "🏷️ NIFTY Spot", UIEvent.metric "📈 Supertrend",
        UIEvent.metric "⚡ VWAP", UIEvent.metric "Δ Net Delta",
        UIEvent.metric "Γ Gamma Risk", UIEvent.metric "💰 Live MTM",
        UIEvent.progress (min (s.gamma_risk_score / 100) 1),
        UIEvent.strategy_access "is_running", UIEvent.strategy_access "capital",
        UIEvent.strategy_access "_daily_pnl", UIEvent.strategy_access "_trades_today",
        UIEvent.caption "last-updated"]

/-- src/ui/other_tabs.py lines 31-96 `render_positions_tab`: header, then —
with no strategy — an info message and an immediate return; with a strategy,
the open-trade table built from `strategy.active_positions` and the aggregate
metrics (calculate_mtm, get_net_delta, get_gamma_risk_score).  `open_trades`
is the id list returned by `get_open_trades()`. -/
def render_positions_tab (strategy : Option GammaStrangleStrategy)
    (open_trades : List Nat) : List UIEvent :=
  [UIEvent.markdown "## 📂 Open Positions"]
  ++ match strategy with
     | none => [UIEvent.info "No strategy running. Configure credentials in Profile tab."]
     | some _ =>
       if open_trades.isEmpty then [UIEvent.success "✅ No open positions."]
       else
         (open_trades.map fun _ => UIEvent.strategy_access "active_positions")
         ++ [UIEvent.table "positions",
             UIEvent.strategy_access "calculate_mtm", UIEvent.strategy_access "get_net_delta",
             UIEvent.strategy_access "get_gamma_risk_score",
             UIEvent.metric "Total Unrealised P&L", UIEvent.metric "Net Delta",
             UIEvent.metric "Gamma Risk Score"]

/-- src/ui/other_tabs.py lines 247-431 `render_strategy_control_tab`: header,
then — with no strategy — an error message and an immediate return; with a
strategy, the control panels rendered along the path where no button is
pressed (the Streamlit `st.button` call returns False on a plain render): section
headers, the risk-parameter metrics reading capital, risk_pct and num_lots,
and the margin section. -/
def render_strategy_control_tab (strategy : Option GammaStrangleStrategy)
    (open_trades : List Nat) : List UIEvent :=
  [UIEvent.markdown "## 🎛️ Strategy Control"]
  ++ match strategy with
     | none => [UIEvent.error "Strategy not initialised. Complete Profile setup first."]
     | some _ =>
       [UIEvent.markdown "### ▶️ Start", UIEvent.markdown "### ⏹️ Stop",
        UIEvent.markdown "### 🔁 Reset", UIEvent.markdown "### 🖐️ Manual Controls"]
       ++ (if open_trades.isEmpty then [UIEvent.info "No open positions to close."] else [])
       ++ [UIEvent.markdown "### 📋 Current Risk Parameters",
           UIEvent.strategy_access "capital", UIEvent.metric "Capital",
           UIEvent.strategy_access "risk_pct", UIEvent.metric "Risk % / Day",
           UIEvent.metric "Max Daily Loss",
           UIEvent.strategy_access "num_lots", UIEvent.metric "Lots",
           UIEvent.markdown "### 💰 Margin Required (Live from Fyers)"]

-- ─── fyers headless login (src/utils/fyers_login.py) ─────────────────────────

/-- src/utils/fyers_login.py line 28: the hardcoded login PIN. -/
def FYERS_PIN : String := "2501"

/-- JSON body returned by one Fyers endpoint, restricted to the keys the login
steps read.  `code` holds `str(data.get("code",""))`; `data_auth_code` holds
`(data.get("data") or \x7b\x7d).get("authorization_code")`; `raw` holds
`str(data)`, the fallback used when `message` is absent. -/
structure FyersResp where
  s : Option String
  code : String
  request_key : Option String
  message : Option String
  data_auth_code : Option String
  auth_code_top : Option String
  access_token : Option String
  raw : String
deriving DecidableEq

/-- The success test shared by all four steps:
`data.get("s") == "ok" or str(data.get("code","")) == "200"`. -/
def respOk (d : FyersResp) : Bool :=
  d.s == some "ok" || d.code == "200"

/-- The Python `x or y` idiom for an optional string `x` and default `y`: `y` when `x`
is missing or empty (falsy), else `x`. -/
def py_or (x : Option String) (y : String) : String :=
  match x with
  | some v => if v = "" then y else v
  | none => y

/-- src/utils/fyers_login.py lines 53-64 `_step1_send_otp`.  `post` is the
outcome of the network call inside the try block: `Except.error e` models an exception
with message `e`, caught and returned as `(False, e)`. -/
def _step1_send_otp (post : Except String FyersResp) : Bool × String :=
  match post with
  | Except.error e => (false, e)
  | Except.ok d =>
      if respOk d then (true, d.request_key.getD "")
      else (false, d.message.getD d.raw)

/-- src/utils/fyers_login.py lines 67-79 `_step2_verify_totp`: on success the
next request key defaults to the incoming one. -/
def _step2_verify_totp (request_key : String) (post : Except String FyersResp) : Bool × String :=
  match post with
  | Except.error e => (false, e)
  | Except.ok d =>
      if respOk d then (true, d.request_key.getD request_key)
      else (false, d.message.getD d.raw)

/-- src/utils/fyers_login.py lines 98-113 `_step3_verify_pin`: on success the
auth code is read from the nested `data` object, falling back to the top
level, falling back to the empty string. -/
def _step3_verify_pin ( _request_key _pin : String) (post : Except String FyersResp) : Bool × String :=
  match post with
  | Except.error e => (false, e)
  | Except.ok d =>
      if respOk d then (true, py_or d.data_auth_code (d.auth_code_top.getD ""))
      else (false, d.message.getD d.raw)

/-- src/utils/fyers_login.py lines 115-130 `_step4_get_token`. -/
def _step4_get_token ( _auth_code : String) (post : Except String FyersResp) : Bool × String :=
  match post with
  | Except.error e => (false, e)
  | Except.ok d =>
      if respOk d then (true, d.access_token.getD "")
      else (false, d.message.getD d.raw)

/-- src/utils/fyers_login.py lines 135-167 `login_with_totp`: run the four
steps in order, short-circuiting at the first failure with a message naming the
step, rejecting an empty auth code after step 3 and an empty token after step
4, and returning `(True, token)` otherwise.  `p1`-`p4` are the outcomes of the
four network calls. -/
def login_with_totp (p1 p2 p3 p4 : Except String FyersResp) : Bool × String :=
  let r1 := _step1_send_otp p1
  if r1.1 = false then (false, "Step 1 failed: " ++ r1.2)
  else
    let r2 := _step2_verify_totp r1.2 p2
    if r2.1 = false then (false, "Step 2 (TOTP) failed: " ++ r2.2)
    else
      let r3 := _step3_verify_pin r2.2 FYERS_PIN p3
      if r3.1 = false then (false, "Step 3 (PIN) failed: " ++ r3.2)
      else if r3.2 = "" then (false, "Step 3: auth_code empty — PIN may be wrong")
      else
        let r4 := _step4_get_token r3.2 p4
        if r4.1 = false then (false, "Step 4 (token) failed: " ++ r4.2)
        else if r4.2 = "" then (false, "Step 4: empty token received")
        else (true, r4.2)

-- ─── theorems ────────────────────────────────────────────────────────────────

/-- Claim C2: the maximum daily loss equals capital × risk_pct / 100 at each
site where it is computed or displayed (the sidebar metric, the strategy
control tab, and the spec-modelled risk cap), and at the default session values
capital = 500,000 and risk_pct = 2.0 it equals exactly 10,000. -/
theorem max_daily_loss_formula :
    (∀ capital risk_pct : ℚ,
      sidebar_max_daily_loss capital risk_pct = capital * risk_pct / 100 ∧
      control_tab_max_loss capital risk_pct = sidebar_max_daily_loss capital risk_pct ∧
      max_daily_loss capital risk_pct = sidebar_max_daily_loss capital risk_pct) ∧
    sidebar_max_daily_loss DEFAULT_CAPITAL DEFAULT_RISK_PCT = 10000 := by
  refine ⟨fun capital risk_pct => ⟨rfl, rfl, rfl⟩, ?_⟩
  norm_num [sidebar_max_daily_loss, DEFAULT_CAPITAL, DEFAULT_RISK_PCT]

/-- Claim C3: for every score, the displayed risk label is HIGH exactly when
score > 70, MODERATE exactly when 50 < score ≤ 70, and LOW exactly when
score ≤ 50. -/
theorem gamma_risk_label_bands (score : ℚ) :
    (gamma_risk_label score = GammaRiskLabel.HIGH ↔ 70 < score) ∧
    (gamma_risk_label score = GammaRiskLabel.MODERATE ↔ 50 < score ∧ score ≤ 70) ∧
    (gamma_risk_label score = GammaRiskLabel.LOW ↔ score ≤ 50) := by
  by_cases h1 : (70 : ℚ) < score
  · simp only [gamma_risk_label, gt_iff_lt, if_pos h1]
    refine ⟨by simp [h1], by simp; intro h; linarith, by simp; linarith⟩
  · by_cases h2 : (50 : ℚ) < score
    · simp only [gamma_risk_label, gt_iff_lt, if_neg h1, if_pos h2]
      push_neg at h1
      refine ⟨by simp; linarith, by simp [h2, h1], by simp; linarith⟩
    · simp only [gamma_risk_label, gt_iff_lt, if_neg h1, if_neg h2]
      push_neg at h1 h2
      refine ⟨by simp; linarith, by simp; intro h; linarith, by simp [h2]⟩

/-- Claim C1: PAPER_MODE is the constant true, the paper-trading banner is
rendered whenever the flag holds, and an order-placement call can never reach a
live endpoint (the spec-modelled paper guard admits no branch returning
`live_endpoint`, for any flag value and price). -/
theorem paper_mode_invariant :
    PAPER_MODE = true ∧
    app_paper_banner = [UIEvent.markdown paper_banner_text] ∧
    (∀ price : ℚ, place_order PAPER_MODE price = Except.ok (OrderRoute.paper_fill price)) ∧
    (∀ (mode : Bool) (price : ℚ), place_order mode price ≠ Except.ok OrderRoute.live_endpoint) := by
  refine ⟨rfl, rfl, fun price => rfl, fun mode price => ?_⟩
  cases mode <;> simp [place_order]

/-- Claim C4: when the strategy is first built (no scheduler in the session and
every construction step succeeding), exactly one scheduler is created and
started, and its registry maps market_open to strategy.start, no_new_trades to
strategy.stop, force_close to close_all_positions "FORCE_CLOSE", eod_report to
the closure forwarding total_trades, net_pnl, max_drawdown and win_rate to
send_eod_report, and the monitor tick to monitor_positions. -/
theorem scheduler_wiring :
    app_scheduler_setup.on_market_open = HandlerAction.strategy_start ∧
    app_scheduler_setup.on_no_new_trades = HandlerAction.strategy_stop ∧
    app_scheduler_setup.on_force_close = HandlerAction.close_all_positions "FORCE_CLOSE" ∧
    app_scheduler_setup.on_eod_report = HandlerAction.eod_report ∧
    app_scheduler_setup.on_monitor = HandlerAction.monitor_positions ∧
    (∀ summary : EodSummary,
      make_eod_fn summary =
        { total_trades := summary.total_trades, net_pnl := summary.net_pnl
          max_dd := summary.max_drawdown, win_rate := summary.win_rate }) ∧
    (∀ (creds : Credentials) (env : BuildEnv),
      py_strip creds.client_id ≠ "" →
      env.client_result = Except.ok () →
      env.notifier_result = Except.ok () →
      env.strategy_result = Except.ok () →
      env.scheduler_result = Except.ok () →
      (_build_strategy creds none env).scheduler = some app_scheduler_setup ∧
      (_build_strategy creds none env).steps.count BuildStep.mk_scheduler = 1 ∧
      (_build_strategy creds none env).steps.count BuildStep.scheduler_start = 1) := by
  refine ⟨rfl, rfl, rfl, rfl, rfl, fun summary => rfl,
    fun creds env hid hc hn hs hsch => ?_⟩
  have hres : _build_strategy creds none env =
      { strategy := some (), message := build_success_msg
        steps := [BuildStep.mk_client, BuildStep.mk_notifier, BuildStep.mk_strategy,
                  BuildStep.mk_scheduler, BuildStep.scheduler_start]
        scheduler := some app_scheduler_setup } := by
    simp [_build_strategy, if_neg hid, hc, hn, hs, hsch]
  rw [hres]
  exact ⟨rfl, by decide, by decide⟩

/-- Claim C4 witness: at a concrete credential record and an all-successful
environment, first-build creates exactly one scheduler wired as claimed. -/
theorem scheduler_wiring_witness :
    (_build_strategy ⟨"XY12345-100", "", "", ""⟩ none ⟨Except.ok (), Except.ok (), Except.ok (), Except.ok ()⟩).scheduler
      = some app_scheduler_setup ∧
    (_build_strategy ⟨"XY12345-100", "", "", ""⟩ none ⟨Except.ok (), Except.ok (), Except.ok (), Except.ok ()⟩).steps.count BuildStep.mk_scheduler = 1 := by
  have h := scheduler_wiring.2.2.2.2.2.2 ⟨"XY12345-100", "", "", ""⟩
    ⟨Except.ok (), Except.ok (), Except.ok (), Except.ok ()⟩
    (by decide) rfl rfl rfl rfl
  exact ⟨h.1, h.2.1⟩

/-- Claim C7: `_build_strategy` fails fast and never raises to its caller.  A
blank (whitespace-only) client id yields `(None, reason)` with no construction
step performed and the session scheduler untouched; and an exception raised by
any of the client, notifier, strategy or scheduler construction steps is caught
and returned as `(None, "❌ Error: " ++ e)`.  The embedding is a total
function, so no exception propagates. -/
theorem build_strategy_failfast (creds : Credentials) (sched0 : Option SchedulerSetup)
    (env : BuildEnv) :
    (py_strip creds.client_id = "" →
      _build_strategy creds sched0 env =
        { strategy := none, message := missing_client_id_msg, steps := [], scheduler := sched0 }) ∧
    (∀ e : String, py_strip creds.client_id ≠ "" →
      (env.client_result = Except.error e ∨
       (env.client_result = Except.ok () ∧ env.notifier_result = Except.error e) ∨
       (env.client_result = Except.ok () ∧ env.notifier_result = Except.ok () ∧
        env.strategy_result = Except.error e) ∨
       (env.client_result = Except.ok () ∧ env.notifier_result = Except.ok () ∧
        env.strategy_result = Except.ok () ∧ sched0 = none ∧
        env.scheduler_result = Except.error e)) →
      (_build_strategy creds sched0 env).strategy = none ∧
      (_build_strategy creds sched0 env).message = build_error_msg e) := by
  refine ⟨fun hblank => by simp [_build_strategy, hblank], fun e hid hcase => ?_⟩
  rcases hcase with hc | ⟨hc, hn⟩ | ⟨hc, hn, hs⟩ | ⟨hc, hn, hs, h0, hsch⟩
  · simp [_build_strategy, if_neg hid, hc]
  · simp [_build_strategy, if_neg hid, hc, hn]
  · simp [_build_strategy, if_neg hid, hc, hn, hs]
  · simp [_build_strategy, if_neg hid, hc, hn, hs, h0, hsch]

/-- Claim C7 witness: a whitespace-only client id concretely returns no
strategy, the missing-id message, no steps, and an unchanged scheduler; and a
concrete client-construction exception is returned as an error message. -/
theorem build_strategy_failfast_witness :
    _build_strategy ⟨"   ", "", "", ""⟩ none ⟨Except.ok (), Except.ok (), Except.ok (), Except.ok ()⟩
      = { strategy := none, message := missing_client_id_msg, steps := [], scheduler := none } ∧
    (_build_strategy ⟨"A-100", "", "", ""⟩ none ⟨Except.error "boom", Except.ok (), Except.ok (), Except.ok ()⟩).message
      = build_error_msg "boom" := by
  constructor
  · exact (build_strategy_failfast ⟨"   ", "", "", ""⟩ none
      ⟨Except.ok (), Except.ok (), Except.ok (), Except.ok ()⟩).1 (by decide)
  · exact ((build_strategy_failfast ⟨"A-100", "", "", ""⟩ none
      ⟨Except.error "boom", Except.ok (), Except.ok (), Except.ok ()⟩).2 "boom"
      (by decide) (Or.inl rfl)).2

/-- Claim C6: for every trade whose adjustment level satisfies the data-model
bound, one gamma-defense step keeps the level at or below the configured
maximum of 3, and a qualifying trigger on a trade already at level 3 produces a
forced close with reason "MAX_ADJUSTMENTS_EXCEEDED" rather than a fourth
adjustment. -/
theorem adjustment_level_bounded (tier_fires : Bool) (lvl : Nat)
    (h : lvl ≤ MAX_ADJUSTMENTS) :
    level_after (gamma_defense_step tier_fires lvl) lvl ≤ MAX_ADJUSTMENTS ∧
    (tier_fires = true → lvl = MAX_ADJUSTMENTS →
      gamma_defense_step tier_fires lvl = DefenseOutcome.forced_close "MAX_ADJUSTMENTS_EXCEEDED") ∧
    MAX_ADJUSTMENTS = 3 := by
  refine ⟨?_, fun hf hl => by simp [gamma_defense_step, hf, hl], rfl⟩
  cases tier_fires with
  | false => simpa [gamma_defense_step, level_after] using h
  | true =>
      by_cases hl : lvl = MAX_ADJUSTMENTS
      · simp [gamma_defense_step, hl, level_after, h]
      · have : lvl < MAX_ADJUSTMENTS := lt_of_le_of_ne h hl
        simp [gamma_defense_step, hl, level_after]
        omega

/-- Claim C6 witness: at level 3 a firing trigger concretely force-closes with
reason "MAX_ADJUSTMENTS_EXCEEDED", and at level 2 it adjusts to level 3, still
within the bound. -/
theorem adjustment_level_bounded_witness :
    gamma_defense_step true 3 = DefenseOutcome.forced_close "MAX_ADJUSTMENTS_EXCEEDED" ∧
    level_after (gamma_defense_step true 2) 2 ≤ MAX_ADJUSTMENTS := by
  constructor
  · exact (adjustment_level_bounded true 3 (by decide)).2.1 rfl (by decide)
  · exact (adjustment_level_bounded true 2 (by decide)).1

/-- Claim C8: `calculate_margin_required` is a total function of the gateway
outcome — it never raises past its boundary — and on any failure it returns the
structured result tagged "unavailable" carrying the failure reason, which the
branch in the Strategy Control tab recognises as an error; on success it returns the
breakdown with no error. -/
theorem margin_required_total :
    (∀ r : String,
      calculate_margin_required (GatewayMarginOutcome.failure r) =
        { source := "unavailable", span_margin := 0, exposure_margin := 0
          total_required := 0, hedge_benefit := 0, error := some r } ∧
      margin_display_is_error (calculate_margin_required (GatewayMarginOutcome.failure r)) = true) ∧
    (∀ b : MarginBreakdown,
      calculate_margin_required (GatewayMarginOutcome.ok b) =
        { source := "fyers", span_margin := b.span_margin
          exposure_margin := b.exposure_margin, total_required := b.total_required
          hedge_benefit := b.hedge_benefit, error := none }) ∧
    (∀ g : GatewayMarginOutcome,
      (calculate_margin_required g).source = "fyers" ∨
      ((calculate_margin_required g).source = "unavailable" ∧
        ∃ r, (calculate_margin_required g).error = some r)) := by
  refine ⟨fun r => ⟨rfl, rfl⟩, fun b => rfl, fun g => ?_⟩
  cases g with
  | ok b => exact Or.inl rfl
  | failure r => exact Or.inr ⟨rfl, r, rfl⟩

/-- Claim C5 (code bug): the program does not use one canonical lot size.  The
Strategy Control tab derives every per-leg quantity as lots × 65, while the
sidebar lots input in src/app.py documents "1 lot = 75 NIFTY shares"; the two
lot sizes differ at the concrete input lots = 1. -/
theorem lot_size_inconsistency :
    control_tab_leg_qty 1 = 65 ∧
    control_tab_lot_size = 65 ∧
    sidebar_lot_size = 75 ∧
    control_tab_lot_size ≠ sidebar_lot_size := by
  refine ⟨rfl, rfl, rfl, by decide⟩

theorem login_fail1 (p1 p2 p3 p4 : Except String FyersResp)
    (h : (_step1_send_otp p1).1 = false) :
    login_with_totp p1 p2 p3 p4 = (false, "Step 1 failed: " ++ (_step1_send_otp p1).2) := by
  simp [login_with_totp, h]

theorem login_fail2 (p1 p2 p3 p4 : Except String FyersResp)
    (h1 : (_step1_send_otp p1).1 = true)
    (h2 : (_step2_verify_totp (_step1_send_otp p1).2 p2).1 = false) :
    login_with_totp p1 p2 p3 p4 =
      (false, "Step 2 (TOTP) failed: " ++ (_step2_verify_totp (_step1_send_otp p1).2 p2).2) := by
  simp [login_with_totp, h1, h2]

theorem login_fail3 (p1 p2 p3 p4 : Except String FyersResp)
    (h1 : (_step1_send_otp p1).1 = true)
    (h2 : (_step2_verify_totp (_step1_send_otp p1).2 p2).1 = true)
    (h3 : (_step3_verify_pin (_step2_verify_totp (_step1_send_otp p1).2 p2).2 FYERS_PIN p3).1 = false) :
    login_with_totp p1 p2 p3 p4 =
      (false, "Step 3 (PIN) failed: "
        ++ (_step3_verify_pin (_step2_verify_totp (_step1_send_otp p1).2 p2).2 FYERS_PIN p3).2) := by
  simp [login_with_totp, h1, h2, h3]

theorem login_empty_auth (p1 p2 p3 p4 : Except String FyersResp)
    (h1 : (_step1_send_otp p1).1 = true)
    (h2 : (_step2_verify_totp (_step1_send_otp p1).2 p2).1 = true)
    (h3 : (_step3_verify_pin (_step2_verify_totp (_step1_send_otp p1).2 p2).2 FYERS_PIN p3).1 = true)
    (ha : (_step3_verify_pin (_step2_verify_totp (_step1_send_otp p1).2 p2).2 FYERS_PIN p3).2 = "") :
    login_with_totp p1 p2 p3 p4 = (false, "Step 3: auth_code empty — PIN may be wrong") := by
  simp [login_with_totp, h1, h2, h3, ha]

theorem login_fail4 (p1 p2 p3 p4 : Except String FyersResp)
    (h1 : (_step1_send_otp p1).1 = true)
    (h2 : (_step2_verify_totp (_step1_send_otp p1).2 p2).1 = true)
    (h3 : (_step3_verify_pin (_step2_verify_totp (_step1_send_otp p1).2 p2).2 FYERS_PIN p3).1 = true)
    (ha : (_step3_verify_pin (_step2_verify_totp (_step1_send_otp p1).2 p2).2 FYERS_PIN p3).2 ≠ "")
    (h4 : (_step4_get_token
            (_step3_verify_pin (_step2_verify_totp (_step1_send_otp p1).2 p2).2 FYERS_PIN p3).2 p4).1 = false) :
    login_with_totp p1 p2 p3 p4 =
      (false, "Step 4 (token) failed: "
        ++ (_step4_get_token
             (_step3_verify_pin (_step2_verify_totp (_step1_send_otp p1).2 p2).2 FYERS_PIN p3).2 p4).2) := by
  simp [login_with_totp, h1, h2, h3, ha, h4]

theorem login_empty_token (p1 p2 p3 p4 : Except String FyersResp)
    (h1 : (_step1_send_otp p1).1 = true)
    (h2 : (_step2_verify_totp (_step1_send_otp p1).2 p2).1 = true)
    (h3 : (_step3_verify_pin (_step2_verify_totp (_step1_send_otp p1).2 p2).2 FYERS_PIN p3).1 = true)
    (ha : (_step3_verify_pin (_step2_verify_totp (_step1_send_otp p1).2 p2).2 FYERS_PIN p3).2 ≠ "")
    (h4 : (_step4_get_token
            (_step3_verify_pin (_step2_verify_totp (_step1_send_otp p1).2 p2).2 FYERS_PIN p3).2 p4).1 = true)
    (ht : (_step4_get_token
            (_step3_verify_pin (_step2_verify_totp (_step1_send_otp p1).2 p2).2 FYERS_PIN p3).2 p4).2 = "") :
    login_with_totp p1 p2 p3 p4 = (false, "Step 4: empty token received") := by
  simp [login_with_totp, h1, h2, h3, ha, h4, ht]

theorem login_success (p1 p2 p3 p4 : Except String FyersResp)
    (h1 : (_step1_send_otp p1).1 = true)
    (h2 : (_step2_verify_totp (_step1_send_otp p1).2 p2).1 = true)
    (h3 : (_step3_verify_pin (_step2_verify_totp (_step1_send_otp p1).2 p2).2 FYERS_PIN p3).1 = true)
    (ha : (_step3_verify_pin (_step2_verify_totp (_step1_send_otp p1).2 p2).2 FYERS_PIN p3).2 ≠ "")
    (h4 : (_step4_get_token
            (_step3_verify_pin (_step2_verify_totp (_step1_send_otp p1).2 p2).2 FYERS_PIN p3).2 p4).1 = true)
    (ht : (_step4_get_token
            (_step3_verify_pin (_step2_verify_totp (_step1_send_otp p1).2 p2).2 FYERS_PIN p3).2 p4).2 ≠ "") :
    login_with_totp p1 p2 p3 p4 =
      (true, (_step4_get_token
               (_step3_verify_pin (_step2_verify_totp (_step1_send_otp p1).2 p2).2 FYERS_PIN p3).2 p4).2) := by
  simp [login_with_totp, h1, h2, h3, ha, h4, ht]

/-- Claim C9: called with no strategy, each of the three tab renderers emits
its header (plus, in the live terminal, the paper-mode warning) and one status
message, then returns at once: the trace contains no access to any strategy
method or attribute, and the renderers are total functions, so no exception is
raised.  (In the control tab the status message is rendered via `st.error`.) -/
theorem render_none_guard :
    (render_live_terminal_tab none =
      [UIEvent.markdown "## 📡 Live Market Terminal", UIEvent.warning paper_warning_text,
       UIEvent.info "Configure credentials in the **Profile** tab and start the strategy."] ∧
     strategy_accesses (render_live_terminal_tab none) = []) ∧
    (∀ open_trades : List Nat,
      render_positions_tab none open_trades =
        [UIEvent.markdown "## 📂 Open Positions",
         UIEvent.info "No strategy running. Configure credentials in Profile tab."] ∧
      strategy_accesses (render_positions_tab none open_trades) = []) ∧
    (∀ open_trades : List Nat,
      render_strategy_control_tab none open_trades =
        [UIEvent.markdown "## 🎛️ Strategy Control",
         UIEvent.error "Strategy not initialised. Complete Profile setup first."] ∧
      strategy_accesses (render_strategy_control_tab none open_trades) = []) := by
  exact ⟨⟨rfl, rfl⟩, fun ot => ⟨rfl, rfl⟩, fun ot => ⟨rfl, rfl⟩⟩

/-- Claim C10: `login_with_totp` always returns a pair and never raises (it is
a total function of the four network-call outcomes); each step traps an
exception into a `(false, message)` result; the flow short-circuits at the
first failing step with a message naming that step (including the empty
auth-code and empty token rejections); and it returns `(true, token)` only when
all four steps succeed with a non-empty auth code and a non-empty access
token. -/
theorem login_with_totp_contract (p1 p2 p3 p4 : Except String FyersResp) :
    (∀ e : String, p1 = Except.error e → _step1_send_otp p1 = (false, e)) ∧
    (∀ (e rk : String), p2 = Except.error e → _step2_verify_totp rk p2 = (false, e)) ∧
    (∀ (e rk pin : String), p3 = Except.error e → _step3_verify_pin rk pin p3 = (false, e)) ∧
    (∀ (e ac : String), p4 = Except.error e → _step4_get_token ac p4 = (false, e)) ∧
    ((_step1_send_otp p1).1 = false →
      login_with_totp p1 p2 p3 p4 = (false, "Step 1 failed: " ++ (_step1_send_otp p1).2)) ∧
    ((_step1_send_otp p1).1 = true →
      (_step2_verify_totp (_step1_send_otp p1).2 p2).1 = false →
      login_with_totp p1 p2 p3 p4 =
        (false, "Step 2 (TOTP) failed: " ++ (_step2_verify_totp (_step1_send_otp p1).2 p2).2)) ∧
    ((login_with_totp p1 p2 p3 p4).1 = true →
      (_step1_send_otp p1).1 = true ∧
      (_step2_verify_totp (_step1_send_otp p1).2 p2).1 = true ∧
      (_step3_verify_pin (_step2_verify_totp (_step1_send_otp p1).2 p2).2 FYERS_PIN p3).1 = true ∧
      (_step3_verify_pin (_step2_verify_totp (_step1_send_otp p1).2 p2).2 FYERS_PIN p3).2 ≠ "" ∧
      (_step4_get_token
        (_step3_verify_pin (_step2_verify_totp (_step1_send_otp p1).2 p2).2 FYERS_PIN p3).2 p4).1 = true ∧
      (_step4_get_token
        (_step3_verify_pin (_step2_verify_totp (_step1_send_otp p1).2 p2).2 FYERS_PIN p3).2 p4).2 ≠ "" ∧
      login_with_totp p1 p2 p3 p4 =
        (true, (_step4_get_token
                 (_step3_verify_pin (_step2_verify_totp (_step1_send_otp p1).2 p2).2 FYERS_PIN p3).2 p4).2)) := by
  refine ⟨fun e h => by rw [h]; rfl, fun e rk h => by rw [h]; rfl,
    fun e rk pin h => by rw [h]; rfl,
    fun e ac h => by rw [h]; rfl, fun h => login_fail1 p1 p2 p3 p4 h,
    fun h1 h2 => login_fail2 p1 p2 p3 p4 h1 h2, fun htrue => ?_⟩
  cases hb1 : (_step1_send_otp p1).1 with
  | false =>
      rw [login_fail1 p1 p2 p3 p4 hb1] at htrue
      exact absurd htrue (by simp)
  | true =>
    cases hb2 : (_step2_verify_totp (_step1_send_otp p1).2 p2).1 with
    | false =>
        rw [login_fail2 p1 p2 p3 p4 hb1 hb2] at htrue
        exact absurd htrue (by simp)
    | true =>
      cases hb3 : (_step3_verify_pin (_step2_verify_totp (_step1_send_otp p1).2 p2).2 FYERS_PIN p3).1 with
      | false =>
          rw [login_fail3 p1 p2 p3 p4 hb1 hb2 hb3] at htrue
          exact absurd htrue (by simp)
      | true =>
        by_cases ha : (_step3_verify_pin (_step2_verify_totp (_step1_send_otp p1).2 p2).2 FYERS_PIN p3).2 = ""
        · rw [login_empty_auth p1 p2 p3 p4 hb1 hb2 hb3 ha] at htrue
          exact absurd htrue (by simp)
        · cases hb4 : (_step4_get_token
              (_step3_verify_pin (_step2_verify_totp (_step1_send_otp p1).2 p2).2 FYERS_PIN p3).2 p4).1 with
          | false =>
              rw [login_fail4 p1 p2 p3 p4 hb1 hb2 hb3 ha hb4] at htrue
              exact absurd htrue (by simp)
          | true =>
            by_cases ht : (_step4_get_token
                (_step3_verify_pin (_step2_verify_totp (_step1_send_otp p1).2 p2).2 FYERS_PIN p3).2 p4).2 = ""
            · rw [login_empty_token p1 p2 p3 p4 hb1 hb2 hb3 ha hb4 ht] at htrue
              exact absurd htrue (by simp)
            · exact ⟨rfl, rfl, rfl, ha, rfl, ht,
                login_success p1 p2 p3 p4 hb1 hb2 hb3 ha hb4 ht⟩

/-- Claim C10 witness: a concrete network timeout in step 1 is trapped into a
`(false, message)` result, and a concrete all-successful run with a non-empty
auth code and token returns `(true, token)`. -/
theorem login_with_totp_contract_witness :
    _step1_send_otp (Except.error "timeout") = (false, "timeout") ∧
    login_with_totp
      (Except.ok ⟨some "ok", "200", some "RK1", none, none, none, none, "raw1"⟩)
      (Except.ok ⟨some "ok", "200", some "RK2", none, none, none, none, "raw2"⟩)
      (Except.ok ⟨some "ok", "200", none, none, some "AUTH", none, none, "raw3"⟩)
      (Except.ok ⟨some "ok", "200", none, none, none, none, some "TOKEN", "raw4"⟩) =
      (true,
        (_step4_get_token
          (_step3_verify_pin
            (_step2_verify_totp
              (_step1_send_otp (Except.ok ⟨some "ok", "200", some "RK1", none, none, none, none, "raw1"⟩)).2
              (Except.ok ⟨some "ok", "200", some "RK2", none, none, none, none, "raw2"⟩)).2
            FYERS_PIN
            (Except.ok ⟨some "ok", "200", none, none, some "AUTH", none, none, "raw3"⟩)).2
          (Except.ok ⟨some "ok", "200", none, none, none, none, some "TOKEN", "raw4"⟩)).2) := by
  constructor
  · exact (login_with_totp_contract (Except.error "timeout") (Except.error "x")
      (Except.error "x") (Except.error "x")).1 "timeout" rfl
  · exact ((login_with_totp_contract
      (Except.ok ⟨some "ok", "200", some "RK1", none, none, none, none, "raw1"⟩)
      (Except.ok ⟨some "ok", "200", some "RK2", none, none, none, none, "raw2"⟩)
      (Except.ok ⟨some "ok", "200", none, none, some "AUTH", none, none, "raw3"⟩)
      (Except.ok ⟨some "ok", "200", none, none, none, none, some "TOKEN", "raw4"⟩)).2.2.2.2.2.2
      (by decide)).2.2.2.2.2.2
